import Mathlib

set_option maxRecDepth 16384

/-!
Verification development for the release-pipeline simulator of this repository.

The repository contains a scripted test harness that drives a git repository
through a fixed sequence of branch, merge, cherry-pick, version-bump, and tag
operations (functions `merge_pr`, `bump_version`, `update_staging_from_main`,
`update_production_from_staging`, `cherry_pick_pr`, `tag_staging`), asserting
after each milestone the output of a "pull requests merged between two refs"
query.  We give a shallow embedding of the repository state and of each scripted
operation, replay the scripted lifetime, and prove the asserted properties.

The query program itself (`getPullRequestsMergedBetween`) is not part of the
sources, only its caller/assertions are; it is therefore modelled from the
specification (see `resolveMergedBetween`).
-/

namespace ReleasePipeline

/-- Semantic version MAJOR.MINOR.PATCH, the contents of the version field of
package.json. -/
structure Version where
  major : Nat
  minor : Nat
  patch : Nat
deriving DecidableEq, Repr

/-- Kind of version bump, the argument of `bump_version`. -/
inductive BumpKind where
  | patch
  | minor
deriving DecidableEq, Repr

/-- Effect of `npm --no-git-tag-version version patch|minor` on the version. -/
def Version.bump : Version → BumpKind → Version
  | v, .patch => ⟨v.major, v.minor, v.patch + 1⟩
  | v, .minor => ⟨v.major, v.minor + 1, 0⟩

/-- Strict lexicographic order on semantic versions, as a Boolean test. -/
def Version.ltb (a b : Version) : Bool :=
  Nat.blt a.major b.major ||
    (a.major == b.major &&
      (Nat.blt a.minor b.minor || (a.minor == b.minor && Nat.blt a.patch b.patch)))

/-- Branch names used by the harness: the three persistent branches, the
ephemeral per-PR branches `pr-<id>`, and the cherry-pick scratch branch
`cherry-pick-staging`. -/
inductive BranchName where
  | main
  | staging
  | production
  | pr (id : Nat)
  | cherryPickStaging
deriving DecidableEq, Repr

/-- Commit message, as written by the harness script.  `mergePull num source`
stands for the literal message `Merge pull request #<num> from
Expensify/<source>`; `versionUpdate v` for `Update version to <v>`. -/
inductive Msg where
  | work (text : String)
  | versionUpdate (v : Version)
  | mergePull (num : Nat) (source : BranchName)
deriving DecidableEq, Repr

/-- Immutable commit node.  `parents` are indices into the append-only commit
store, first parent = mainline.  `version` is the version recorded in the
commit's tree (PR branches never touch the version file, so every operation
can compute it directly).  `cherrySource` is the back-link recorded by
`git cherry-pick -x`; `xTheirs` records that the commit was produced by a
cherry-pick run with the `-Xtheirs` (prefer incoming side) conflict strategy. -/
structure Commit where
  parents : List Nat
  msg : Msg
  version : Version
  cherrySource : Option Nat
  xTheirs : Bool
deriving DecidableEq, Repr

instance : Inhabited Commit := ⟨⟨[], .work "", ⟨0, 0, 0⟩, none, false⟩⟩

/-- Whole-repository state: the append-only commit store (index = creation
order), the branch pointers, and the tags in creation order. -/
structure Repo where
  commits : List Commit
  branches : BranchName → Option Nat
  tags : List (Version × Nat)

/-- Commit with index `i` (queries in the replay only use existing indices). -/
def Repo.commitAt (r : Repo) (i : Nat) : Commit :=
  r.commits.getD i default

/-- Tip of a branch (branches are only read while they exist). -/
def Repo.tip (r : Repo) (b : BranchName) : Nat :=
  (r.branches b).getD 0

/-- Append a commit to the store. -/
def Repo.addCommit (r : Repo) (c : Commit) : Repo :=
  { r with commits := r.commits ++ [c] }

/-- Point branch `b` at commit `i` (covers branch creation, `git branch -D`
plus `git switch -c`, and force-pushes, which all just move the pointer). -/
def Repo.setBranch (r : Repo) (b : BranchName) (i : Nat) : Repo :=
  { r with branches := fun x => if x = b then some i else r.branches x }

/-- Delete branch `b`. -/
def Repo.deleteBranch (r : Repo) (b : BranchName) : Repo :=
  { r with branches := fun x => if x = b then none else r.branches x }

/-- The scripted creation of a PR branch: switch to main, create branch
`pr-<id>`, commit one change with the given message. -/
def createPR (r : Repo) (id : Nat) (message : String) : Repo :=
  let m := r.tip .main
  let c : Commit :=
    { parents := [m], msg := .work message, version := (r.commitAt m).version,
      cherrySource := none, xTheirs := false }
  (r.addCommit c).setBranch (.pr id) r.commits.length

/-- `merge_pr`: switch to main, merge branch `pr-<id>` with `--no-ff` and the
message `Merge pull request #<id> from Expensify/pr-<id>`, delete the PR
branch.  PR branches never modify the version file, so the merge result keeps
main's version. -/
def mergePR (r : Repo) (id : Nat) : Repo :=
  let m := r.tip .main
  let p := r.tip (.pr id)
  let c : Commit :=
    { parents := [m, p], msg := .mergePull id (.pr id),
      version := (r.commitAt m).version, cherrySource := none, xTheirs := false }
  (((r.addCommit c).setBranch .main r.commits.length).deleteBranch (.pr id))

/-- `bump_version`: on main, bump the version and commit the version-file
change with the message `Update version to <new version>`. -/
def bumpVersion (r : Repo) (kind : BumpKind) : Repo :=
  let m := r.tip .main
  let v := ((r.commitAt m).version).bump kind
  let c : Commit :=
    { parents := [m], msg := .versionUpdate v, version := v,
      cherrySource := none, xTheirs := false }
  (r.addCommit c).setBranch .main r.commits.length

/-- `update_staging_from_main`: delete staging and recreate it at main's tip. -/
def updateStagingFromMain (r : Repo) : Repo :=
  r.setBranch .staging (r.tip .main)

/-- `update_production_from_staging`: recreate production at staging's tip. -/
def updateProductionFromStaging (r : Repo) : Repo :=
  r.setBranch .production (r.tip .staging)

/-- `git cherry-pick -x --mainline 1 [-Xtheirs] <src>` onto the tip of
`onto`: a new single-parent commit carrying the source commit's message and a
recorded link back to the source.  The version file is the one file the
harness's cherry-picked commits may touch: the pick applies the diff of the
source against its mainline (first) parent, so the result takes the source's
version exactly when the source changed it. -/
def cherryPickCommit (r : Repo) (src : Nat) (onto : BranchName) (theirs : Bool) : Repo :=
  let t := r.tip onto
  let sc := r.commitAt src
  let v :=
    if sc.version = (r.commitAt (sc.parents.getD 0 0)).version then
      (r.commitAt t).version
    else sc.version
  let c : Commit :=
    { parents := [t], msg := sc.msg, version := v,
      cherrySource := some src, xTheirs := theirs }
  (r.addCommit c).setBranch onto r.commits.length

/-- `cherry_pick_pr`: merge the PR into main (via `merge_pr`), bump the
version (patch), create the scratch branch `cherry-pick-staging` from current
staging, cherry-pick the PR merge commit (with `-Xtheirs`) and then the
version-bump commit onto it, fold the scratch branch into staging with a
`--no-ff` merge commit whose message names pull request number `id + 1` from
`Expensify/cherry-pick-staging`, and delete the scratch branch.  The fold
merge's base is the staging tip itself, so its tree (hence version) is the
scratch tip's. -/
def cherryPickPR (r : Repo) (id : Nat) : Repo :=
  let r1 := mergePR r id
  let prMergeCommit := r1.tip .main
  let r2 := bumpVersion r1 .patch
  let versionBumpCommit := r2.tip .main
  let r3 := r2.setBranch .cherryPickStaging (r2.tip .staging)
  let r4 := cherryPickCommit r3 prMergeCommit .cherryPickStaging true
  let r5 := cherryPickCommit r4 versionBumpCommit .cherryPickStaging false
  let s := r5.tip .staging
  let cp := r5.tip .cherryPickStaging
  let c : Commit :=
    { parents := [s, cp], msg := .mergePull (id + 1) .cherryPickStaging,
      version := (r5.commitAt cp).version, cherrySource := none, xTheirs := false }
  (((r5.addCommit c).setBranch .staging r5.commits.length).deleteBranch .cherryPickStaging)

/-- `tag_staging`: tag staging's tip with the version recorded in its tree. -/
def tagStaging (r : Repo) : Repo :=
  let s := r.tip .staging
  { r with tags := r.tags ++ [((r.commitAt s).version, s)] }

/-- Look a version tag up (first tag with that name). -/
def lookupTag (r : Repo) (v : Version) : Option Nat :=
  (r.tags.find? (fun p => p.1 = v)).map Prod.snd

/-- Commits reachable from `src` through parent links.  Parents always precede
their children in the append-only store, so one downward sweep that expands
every already-marked index computes the reachable set. -/
def ancMarks (r : Repo) (src : Nat) : List Nat :=
  (List.range r.commits.length).foldr
    (fun i acc => if acc.contains i then acc ++ (r.commitAt i).parents else acc)
    [src]

/-- Boolean reachability: `tgt` is an ancestor of (or equal to) `src`. -/
def reaches (r : Repo) (src tgt : Nat) : Bool :=
  (ancMarks r src).contains tgt

/-- Commits belonging to the window between refs `lo` and `hi`: those reachable
from exactly one of the two, in ascending creation order. -/
def windowCommits (r : Repo) (lo hi : Nat) : List Nat :=
  (List.range r.commits.length).filter (fun i => reaches r hi i != reaches r lo i)

/-- Modelled from the spec: the PR-identifier parser of the PR-Window Resolver
(the query program `getPullRequestsMergedBetween` is not among the sources).
A commit message encodes a PR identifier exactly when it is a merge of the
PR-numbered branch: `Merge pull request #<n> from Expensify/pr-<n>`.  The
fold-in merges from `Expensify/cherry-pick-staging` and the version-bump
commits encode none. -/
def prIdOfMsg : Msg → Option Nat
  | .mergePull n (.pr m) => if n = m then some n else none
  | _ => none

/-- Keep the first occurrence of each identifier, preserving order. -/
def dedupKeepFirst (l : List Nat) : List Nat :=
  l.foldl (fun acc n => if acc.contains n then acc else acc ++ [n]) []

/-- Modelled from the spec: `resolveMergedBetween` of the PR-Window Resolver
(`getPullRequestsMergedBetween` is not among the sources; this definition
follows the specification's contract together with the literal scenario
outputs the harness asserts).  The window between the two refs is the
symmetric history difference: commits reachable from exactly one of them.
From those commits the identifiers of PR merges are extracted
(`prIdOfMsg`) and deduplicated by PR identifier: an identifier found on both
sides of the window — once as the merge commit on main and once as its
cherry-picked copy, matched via the message-borne identifier the `-x` link
preserves, never by commit identity — belongs to an already-shipped release
and cancels out (parity), so no identifier is ever reported twice.  The
surviving identifiers are ordered descending by commit creation order
(most-recently-merged first).  The query fails (`none`) only when a
referenced tag does not exist. -/
def resolveMergedBetween (r : Repo) (lo hi : Version) : Option (List Nat) :=
  match lookupTag r lo, lookupTag r hi with
  | some a, some b =>
    let ids := (windowCommits r a b).filterMap (fun i => prIdOfMsg (r.commitAt i).msg)
    some (dedupKeepFirst (ids.reverse.filter (fun n => ids.count n % 2 = 1)))
  | _, _ => none

/-! ### The scripted lifetime

Replay of the harness script: setup, then scenarios 1 through 6, with the
same operations in the same order. -/

/-- Initial repository: one commit, version 1.0.0, all three persistent
branches at it. -/
def repo0 : Repo :=
  { commits := [{ parents := [], msg := .work "Initial commit",
                  version := ⟨1, 0, 0⟩, cherrySource := none, xTheirs := false }],
    branches := fun b =>
      match b with
      | .main => some 0
      | .staging => some 0
      | .production => some 0
      | _ => none,
    tags := [] }

/-- Setup: tag staging (1.0.0). -/
def rSetup : Repo := tagStaging repo0

/-- Scenario 1: create PR 1, merge it, patch bump, recreate staging, tag. -/
def rS1 : Repo :=
  tagStaging (updateStagingFromMain (bumpVersion (mergePR (createPR rSetup 1 "Changes from PR #1") 1) .patch))

/-- Scenario 2: create PR 2 and merge it to main only. -/
def rS2 : Repo := mergePR (createPR rS1 2 "Changes from PR #2") 2

/-- Scenario 3: create PR 3 and cherry-pick it to staging, tag. -/
def rS3 : Repo := tagStaging (cherryPickPR (createPR rS2 3 "Changes from PR #3") 3)

/-- Scenario 4A: production deploy. -/
def rS4A : Repo := updateProductionFromStaging rS3

/-- Scenario 4B: minor bump, recreate staging, tag. -/
def rS4B : Repo := tagStaging (updateStagingFromMain (bumpVersion rS4A .minor))

/-- Scenario 5: create PR 5, merge, patch bump, recreate staging, tag. -/
def rS5 : Repo :=
  tagStaging (updateStagingFromMain (bumpVersion (mergePR (createPR rS4B 5 "Changes from PR #5") 5) .patch))

/-- Scenario 6, part one: PR 6 adds a file; merge, bump, stage, tag. -/
def rS6a : Repo :=
  tagStaging (updateStagingFromMain (bumpVersion (mergePR (createPR rS5 6 "Add myFile.txt in PR #6") 6) .patch))

/-- Scenario 6, part two: PR 7 appends and prepends; merge, bump, stage, tag. -/
def rS6b : Repo :=
  tagStaging (updateStagingFromMain (bumpVersion (mergePR (createPR rS6a 7 "Append and prepend content in myFile.txt") 7) .patch))

/-- Scenario 6, part three: PR 8, an unrelated change, merged to main only. -/
def rS6c : Repo := mergePR (createPR rS6b 8 "Create another file") 8

/-- Scenario 6, part four: PR 9 reverts; cherry-picked to staging, tag. -/
def rS6d : Repo := tagStaging (cherryPickPR (createPR rS6c 9 "Revert append and prepend") 9)

/-- Scenario 6, part five: PR 10 reapplies the change, merged to main only. -/
def rS6e : Repo := mergePR (createPR rS6d 10 "Append and prepend content in myFile.txt") 10

/-- Scenario 6, end: production deploy, minor bump, recreate staging, tag. -/
def rFinal : Repo :=
  tagStaging (updateStagingFromMain (bumpVersion (updateProductionFromStaging rS6e) .minor))

/-! ### Auto-reporting monthly-offset page

Shallow embedding of `WorkspaceAutoReportingMonthlyOffsetPage`. -/

namespace OffsetPage

/-- Policy auto-reporting offset value: an integer day of the month or one of
the two sentinel enumerations of `CONST.POLICY.AUTO_REPORTING_OFFSET`. -/
inductive AutoReportingOffset where
  | day (n : Nat)
  | lastDayOfMonth
  | lastBusinessDayOfMonth
deriving DecidableEq, Repr

/-- One item of the selection list shown by the page. -/
structure PageItem where
  text : String
  keyForList : String
  isSelected : Bool
  isNumber : Bool
deriving DecidableEq, Repr

/-- The constant `DAYS_OF_MONTH`. -/
def DAYS_OF_MONTH : Nat := 28

/-- The ordinal suffix the page picks for a day number. -/
def suffixFor (day : Nat) : String :=
  if day = 1 ∨ day = 21 then "st"
  else if day = 2 ∨ day = 22 then "nd"
  else if day = 3 ∨ day = 23 then "rd"
  else "th"

/-- The page's `daysOfMonth` list: `DAYS_OF_MONTH` numbered items (day =
index + 1) followed by the two sentinel items.  `translate` is the opaque
localization function, `offset` the policy's current offset. -/
def daysOfMonth (translate : String → String) (offset : AutoReportingOffset) : List PageItem :=
  ((List.range DAYS_OF_MONTH).map fun index =>
    { text := Nat.repr (index + 1) ++ suffixFor (index + 1),
      keyForList := Nat.repr (index + 1),
      isSelected := offset == .day (index + 1),
      isNumber := true })
  ++ [{ keyForList := "lastDayOfMonth",
        text := translate "workflowsPage.frequencies.lastDayOfMonth",
        isSelected := offset == .lastDayOfMonth, isNumber := false },
      { keyForList := "lastBusinessDayOfMonth",
        text := translate "workflowsPage.frequencies.lastBusinessDayOfMonth",
        isSelected := offset == .lastBusinessDayOfMonth, isNumber := false }]

/-- Offset value passed to the external set-offset API. -/
inductive OffsetValue where
  | num (n : Nat)
  | key (s : String)
deriving DecidableEq, Repr

/-- Decimal string parse, the behavior of `parseInt(s, 10)` on the
non-negative decimal keys the page produces. -/
def parseDecimal (s : String) : Option Nat :=
  if s.data ≠ [] ∧ s.data.all (fun c => 48 ≤ c.toNat && c.toNat ≤ 57) then
    some (s.data.foldl (fun acc c => acc * 10 + (c.toNat - 48)) 0)
  else none

/-- `onSelectDayOfMonth`: the (policy identifier, offset value) pair passed to
`Policy.setWorkspaceAutoReportingMonthlyOffset` for a selected item — the
parsed integer day when the item is a number, the sentinel key otherwise. -/
def onSelectDayOfMonth (policyId : String) (item : PageItem) : String × OffsetValue :=
  (policyId,
    if item.isNumber then .num ((parseDecimal item.keyForList).getD 0)
    else .key item.keyForList)

end OffsetPage

/-! ### Helper lemmas -/

/-- Indexing just past a prefix of an appended list hits the first appended
element. -/
theorem getD_append_self {α : Type} (A : List α) (x : α) (rest : List α) (d : α) :
    (A ++ x :: rest).getD A.length d = x := by
  induction A with
  | nil => rfl
  | cons a A ih => simpa using ih

/-- Optional indexing past a prefix of an appended list lands in the suffix. -/
theorem getElem?_append_len {α : Type} (A l : List α) (n : Nat) :
    (A ++ l)[A.length + n]? = l[n]? := by
  simp [List.getElem?_append_right]

/-- Optional indexing at the length of a prefix hits the suffix's head. -/
theorem getElem?_append_len0 {α : Type} (A l : List α) :
    (A ++ l)[A.length]? = l[0]? := by
  simp [List.getElem?_append_right]

/-- Total indexing past a prefix of an appended list lands in the suffix. -/
theorem getElem_append_len {α : Type} (A l : List α) (n : Nat)
    (hn : n < l.length) (h : A.length + n < (A ++ l).length) :
    (A ++ l)[A.length + n] = l[n] := by
  rw [List.getElem_append_right (by omega)]
  congr 1
  omega

/-- Total indexing at the length of a prefix hits the suffix's head. -/
theorem getElem_append_len0 {α : Type} (A l : List α)
    (hn : 0 < l.length) (h : A.length < (A ++ l).length) :
    (A ++ l)[A.length] = l[0] := by
  rw [List.getElem_append_right (by omega)]
  congr 1
  omega

/-- The accumulator-based first-occurrence deduplication never repeats an
element. -/
theorem dedupKeepFirst_aux (l : List Nat) :
    ∀ acc : List Nat, acc.Nodup →
      (l.foldl (fun acc n => if acc.contains n then acc else acc ++ [n]) acc).Nodup := by
  induction l with
  | nil => intro acc h; simpa using h
  | cons a l ih =>
    intro acc h
    simp only [List.foldl_cons]
    by_cases hc : acc.contains a = true
    · rw [if_pos hc]; exact ih acc h
    · rw [if_neg hc]
      refine ih _ ?_
      have ha : a ∉ acc := by
        intro hmem
        exact hc (by simpa using hmem)
      simp [List.nodup_append, h, ha]

theorem dedupKeepFirst_nodup (l : List Nat) : (dedupKeepFirst l).Nodup :=
  dedupKeepFirst_aux l [] (by simp)

/-! ### Claims -/

/-- Claim C1: for the sequences of disjoint PR merges applied in order to main
and flowed to staging over the scripted lifetime, `resolveMergedBetween` over
the tag range covering them returns exactly their identifiers, ordered
descending by merge time (most-recently-merged first); in particular after
PRs 2, 5, 6, 7 the window from 1.0.2 to 1.1.3 yields [7, 6, 5, 2]. -/
theorem claim_C1_merge_flow_windows :
    resolveMergedBetween rS1 ⟨1, 0, 0⟩ ⟨1, 0, 1⟩ = some [1]
  ∧ resolveMergedBetween rS5 ⟨1, 1, 0⟩ ⟨1, 1, 1⟩ = some [5]
  ∧ resolveMergedBetween rS5 ⟨1, 0, 2⟩ ⟨1, 1, 1⟩ = some [5, 2]
  ∧ resolveMergedBetween rS6a ⟨1, 1, 1⟩ ⟨1, 1, 2⟩ = some [6]
  ∧ resolveMergedBetween rS6a ⟨1, 0, 2⟩ ⟨1, 1, 2⟩ = some [6, 5, 2]
  ∧ resolveMergedBetween rS6b ⟨1, 1, 2⟩ ⟨1, 1, 3⟩ = some [7]
  ∧ resolveMergedBetween rS6b ⟨1, 0, 2⟩ ⟨1, 1, 3⟩ = some [7, 6, 5, 2] := by
  refine ⟨?_, ?_, ?_, ?_, ?_, ?_, ?_⟩ <;> decide

/-- Claim C2: after PR 3 is cherry-picked to staging while PR 2 remains merged
to main but unreleased, the window 1.0.0 to 1.0.2 is exactly [3, 1] and the
window 1.0.1 to 1.0.2 is exactly [3]; PR 2's identifier appears in neither. -/
theorem claim_C2_cherry_pick_windows :
    resolveMergedBetween rS3 ⟨1, 0, 0⟩ ⟨1, 0, 2⟩ = some [3, 1]
  ∧ resolveMergedBetween rS3 ⟨1, 0, 1⟩ ⟨1, 0, 2⟩ = some [3]
  ∧ 2 ∉ (resolveMergedBetween rS3 ⟨1, 0, 0⟩ ⟨1, 0, 2⟩).getD []
  ∧ 2 ∉ (resolveMergedBetween rS3 ⟨1, 0, 1⟩ ⟨1, 0, 2⟩).getD [] := by
  refine ⟨?_, ?_, ?_, ?_⟩ <;> decide

/-- Claim C3: a cherry-picked PR never yields a duplicated identifier — the
resolver's output never contains an identifier twice, for any window of any
repository state; and after PR 3's cherry-pick and the next staging
recreation, the window 1.0.2 to 1.1.0 is exactly [2], with no duplicate 3. -/
theorem claim_C3_no_duplicates :
    (∀ (r : Repo) (lo hi : Version) (l : List Nat),
        resolveMergedBetween r lo hi = some l → l.Nodup)
  ∧ resolveMergedBetween rS4B ⟨1, 0, 2⟩ ⟨1, 1, 0⟩ = some [2] := by
  constructor
  · intro r lo hi l h
    unfold resolveMergedBetween at h
    split at h
    · cases h
      exact dedupKeepFirst_nodup _
    · cases h
  · decide

/-- Witness for claim C3 at a concrete window. -/
theorem claim_C3_no_duplicates_witness :
    resolveMergedBetween rS4B ⟨1, 0, 2⟩ ⟨1, 1, 0⟩ = some [2] ∧ ([2] : List Nat).Nodup :=
  ⟨claim_C3_no_duplicates.2,
   claim_C3_no_duplicates.1 rS4B ⟨1, 0, 2⟩ ⟨1, 1, 0⟩ [2] claim_C3_no_duplicates.2⟩

/-- Claim C4: a revert PR and a later PR reapplying the equivalent change are
distinct, correctly ordered entries of their respective windows — revert PR 9
appears in the production range 1.0.2 to 1.1.4 as [9, 7, 6, 5, 2] and
reapplying PR 10 appears in the next window 1.1.4 to 1.2.0 as [10, 8]. -/
theorem claim_C4_revert_reapply_windows :
    resolveMergedBetween rFinal ⟨1, 0, 2⟩ ⟨1, 1, 4⟩ = some [9, 7, 6, 5, 2]
  ∧ resolveMergedBetween rFinal ⟨1, 1, 4⟩ ⟨1, 2, 0⟩ = some [10, 8] := by
  refine ⟨?_, ?_⟩ <;> decide

/-- Claim C5: `cherryPickPR` performs exactly this sequence — merge the PR's
branch into main as `mergePR` does, bump the version (patch), cherry-pick the
PR merge commit (preferring the incoming PR side on conflicts) and then the
version-bump commit onto a scratch branch created from current staging, fold
the scratch branch into staging via a merge commit, and delete the scratch
branch.  The state after `cherryPickPR` extends `bumpVersion (mergePR r id)
.patch` by exactly the two cherry-picked copies and the fold-in merge
commit. -/
theorem claim_C5_cherry_pick_sequence (r : Repo) (id : Nat) :
    (cherryPickPR r id).commits.length = r.commits.length + 5
  ∧ (cherryPickPR r id).commits.take (r.commits.length + 2) =
      (bumpVersion (mergePR r id) .patch).commits
  ∧ (mergePR r id).tip .main = r.commits.length
  ∧ (bumpVersion (mergePR r id) .patch).tip .main = r.commits.length + 1
  ∧ (bumpVersion (mergePR r id) .patch).tip .staging = r.tip .staging
  ∧ ((cherryPickPR r id).commitAt (r.commits.length + 2)).parents =
      [(bumpVersion (mergePR r id) .patch).tip .staging]
  ∧ ((cherryPickPR r id).commitAt (r.commits.length + 2)).msg = .mergePull id (.pr id)
  ∧ ((cherryPickPR r id).commitAt (r.commits.length + 2)).cherrySource =
      some (r.commits.length)
  ∧ ((cherryPickPR r id).commitAt (r.commits.length + 2)).xTheirs = true
  ∧ ((cherryPickPR r id).commitAt (r.commits.length + 3)).parents = [r.commits.length + 2]
  ∧ ((cherryPickPR r id).commitAt (r.commits.length + 3)).msg =
      .versionUpdate ((((mergePR r id).commitAt ((mergePR r id).tip .main)).version).bump .patch)
  ∧ ((cherryPickPR r id).commitAt (r.commits.length + 3)).cherrySource =
      some (r.commits.length + 1)
  ∧ ((cherryPickPR r id).commitAt (r.commits.length + 3)).xTheirs = false
  ∧ ((cherryPickPR r id).commitAt (r.commits.length + 4)).parents =
      [(bumpVersion (mergePR r id) .patch).tip .staging, r.commits.length + 3]
  ∧ ((cherryPickPR r id).commitAt (r.commits.length + 4)).msg =
      .mergePull (id + 1) .cherryPickStaging
  ∧ ((cherryPickPR r id).commitAt (r.commits.length + 4)).cherrySource = none
  ∧ ((cherryPickPR r id).commitAt (r.commits.length + 4)).version =
      ((cherryPickPR r id).commitAt (r.commits.length + 3)).version
  ∧ (cherryPickPR r id).tip .staging = r.commits.length + 4
  ∧ (cherryPickPR r id).branches .cherryPickStaging = none
  ∧ (cherryPickPR r id).tip .main = r.commits.length + 1 := by
  refine ⟨?_, ?_, ?_, ?_, ?_, ?_, ?_, ?_, ?_, ?_, ?_, ?_, ?_, ?_, ?_, ?_, ?_, ?_, ?_, ?_⟩ <;>
    simp [cherryPickPR, cherryPickCommit, mergePR, bumpVersion, Repo.addCommit,
      Repo.setBranch, Repo.deleteBranch, Repo.tip, Repo.commitAt, List.append_assoc,
      List.length_append, getElem?_append_len, getElem?_append_len0,
      getElem_append_len, getElem_append_len0, List.take_append]

/-- Claim C6: `bumpVersion` deterministically increments the version — patch
bumps the third component, minor bumps the second and resets the third to 0 —
producing exactly one version-bump commit on main with main pointing at it;
and over the scripted lifetime of the repository the tagged versions are
strictly increasing, so no version is ever tagged twice. -/
theorem claim_C6_version_monotonic :
    (∀ (r : Repo) (k : BumpKind),
        (bumpVersion r k).commits =
          r.commits ++
            [{ parents := [r.tip .main],
               msg := .versionUpdate (((r.commitAt (r.tip .main)).version).bump k),
               version := ((r.commitAt (r.tip .main)).version).bump k,
               cherrySource := none, xTheirs := false }]
      ∧ (bumpVersion r k).tip .main = r.commits.length)
  ∧ (∀ v : Version,
        v.bump .patch = ⟨v.major, v.minor, v.patch + 1⟩
      ∧ v.bump .minor = ⟨v.major, v.minor + 1, 0⟩)
  ∧ rFinal.tags.map Prod.fst =
      [⟨1, 0, 0⟩, ⟨1, 0, 1⟩, ⟨1, 0, 2⟩, ⟨1, 1, 0⟩, ⟨1, 1, 1⟩,
       ⟨1, 1, 2⟩, ⟨1, 1, 3⟩, ⟨1, 1, 4⟩, ⟨1, 2, 0⟩]
  ∧ (rFinal.tags.map Prod.fst).Pairwise (fun a b => Version.ltb a b = true)
  ∧ (rFinal.tags.map Prod.fst).Nodup := by
  refine ⟨fun r k => ⟨rfl, rfl⟩, fun v => ⟨rfl, rfl⟩, by decide, by decide, by decide⟩

/-- Claim C7: for every tag that exists in the repository, resolving the
window between the tag and itself returns the empty sequence. -/
theorem claim_C7_empty_window (r : Repo) (v : Version) (c : Nat)
    (h : lookupTag r v = some c) :
    resolveMergedBetween r v v = some [] := by
  unfold resolveMergedBetween
  rw [h]
  simp [windowCommits, dedupKeepFirst]

/-- Witness for claim C7 at the concrete tag 1.0.1 of the scenario-1 state. -/
theorem claim_C7_empty_window_witness :
    lookupTag rS1 ⟨1, 0, 1⟩ = some 3 ∧ resolveMergedBetween rS1 ⟨1, 0, 1⟩ ⟨1, 0, 1⟩ = some [] :=
  ⟨by decide, claim_C7_empty_window rS1 ⟨1, 0, 1⟩ 3 (by decide)⟩

/-- Claim C8 is refuted on the code: at the window from 1.0.2 to 1.1.3 the
lower ref is not an ancestor of the upper ref (staging's history at 1.0.2
contains the cherry-picked commits, absent from main's), yet the resolver
succeeds — exactly the output the harness asserts — instead of failing. -/
theorem claim_C8_counterexample :
    reaches rS6b ((lookupTag rS6b ⟨1, 1, 3⟩).getD 0) ((lookupTag rS6b ⟨1, 0, 2⟩).getD 0) = false
  ∧ resolveMergedBetween rS6b ⟨1, 0, 2⟩ ⟨1, 1, 3⟩ = some [7, 6, 5, 2] := by
  refine ⟨?_, ?_⟩ <;> decide

/-- Claim C8 as amended: `resolveMergedBetween` fails exactly when one of the
two refs does not exist in the repository; it does not require the lower ref
to be an ancestor of the upper ref, since the window is computed over the
symmetric history difference of the two refs. -/
theorem claim_C8_amended_failure_condition (r : Repo) (lo hi : Version) :
    resolveMergedBetween r lo hi = none ↔
      (lookupTag r lo = none ∨ lookupTag r hi = none) := by
  unfold resolveMergedBetween
  cases hl : lookupTag r lo <;> cases hh : lookupTag r hi <;> simp

/-- Claim C9: the monthly-offset page offers exactly the 28 integer
day-of-month options 1 through 28 followed by the two sentinel options, and
for every item the selection handler passes the policy identifier together
with the parsed integer day when the item is a number, or the sentinel key
otherwise. -/
theorem claim_C9_offset_page (translate : String → String)
    (offset : OffsetPage.AutoReportingOffset) (policyId : String) :
    (OffsetPage.daysOfMonth translate offset).map OffsetPage.PageItem.keyForList =
      ["1", "2", "3", "4", "5", "6", "7", "8", "9", "10", "11", "12", "13", "14",
       "15", "16", "17", "18", "19", "20", "21", "22", "23", "24", "25", "26",
       "27", "28", "lastDayOfMonth", "lastBusinessDayOfMonth"]
  ∧ (OffsetPage.daysOfMonth translate offset).map
      (OffsetPage.onSelectDayOfMonth policyId) =
      [(policyId, .num 1), (policyId, .num 2), (policyId, .num 3),
       (policyId, .num 4), (policyId, .num 5), (policyId, .num 6),
       (policyId, .num 7), (policyId, .num 8), (policyId, .num 9),
       (policyId, .num 10), (policyId, .num 11), (policyId, .num 12),
       (policyId, .num 13), (policyId, .num 14), (policyId, .num 15),
       (policyId, .num 16), (policyId, .num 17), (policyId, .num 18),
       (policyId, .num 19), (policyId, .num 20), (policyId, .num 21),
       (policyId, .num 22), (policyId, .num 23), (policyId, .num 24),
       (policyId, .num 25), (policyId, .num 26), (policyId, .num 27),
       (policyId, .num 28), (policyId, .key "lastDayOfMonth"),
       (policyId, .key "lastBusinessDayOfMonth")]
  ∧ (OffsetPage.daysOfMonth translate offset).length = 30 := by
  refine ⟨rfl, rfl, rfl⟩

/-- Claim C10: the merge commit folding PR 9's cherry-pick into staging
carries the message of pull request number 10 from the cherry-pick scratch
branch and the cherry-picked version bump to 1.1.4; it lies inside the window
from 1.0.2 to 1.1.4, yet the resolver reports only the original identifier 9
there and never the synthetic fold-in number 10. -/
theorem claim_C10_fold_commit_number :
    rS6d.tip .staging = 29
  ∧ rFinal.commitAt 29 =
      { parents := [21, 28], msg := .mergePull 10 .cherryPickStaging,
        version := ⟨1, 1, 4⟩, cherrySource := none, xTheirs := false }
  ∧ 29 ∈ windowCommits rFinal ((lookupTag rFinal ⟨1, 0, 2⟩).getD 0)
        ((lookupTag rFinal ⟨1, 1, 4⟩).getD 0)
  ∧ resolveMergedBetween rFinal ⟨1, 0, 2⟩ ⟨1, 1, 4⟩ = some [9, 7, 6, 5, 2]
  ∧ 10 ∉ (resolveMergedBetween rFinal ⟨1, 0, 2⟩ ⟨1, 1, 4⟩).getD [] := by
  refine ⟨?_, ?_, ?_, ?_, ?_⟩ <;> decide

end ReleasePipeline
